import Mathlib

/-!
Verification of the Lanyard presence server (`lanyard_server.py`).

The Python source is shallowly embedded below.  Strings are Lean `String`s
(lists of Unicode scalar values, as in CPython), JSON objects with optional
keys become structures whose fields are `Option`s (`dict.get(k, d)` becomes
`Option.getD`, and Python truthiness of a value obtained by `.get` is made
explicit at each use site), and each `async` tool is a pure function of the
caller-supplied argument together with the outcome of its single outbound
HTTP request; the tool also returns the list of URLs it requested, so that
"no request was issued" is expressible.  Exceptions that the Python code
converts to returned strings are modelled by returning those strings.
-/

namespace Lanyard

/-- Models CPython's whitespace test for `str` (the character set used by
`str.strip()` with no argument): ASCII whitespace, the C1 controls
U+001C–U+001F and U+0085, and the Unicode space separators. -/
def pyIsSpace (c : Char) : Bool :=
  c == ' ' || c == '\t' || c == '\n' || c == '\r' || c == '\x0b' || c == '\x0c' ||
  (0x1c ≤ c.toNat && c.toNat ≤ 0x1f) || c.toNat == 0x85 || c.toNat == 0xa0 ||
  c.toNat == 0x1680 || (0x2000 ≤ c.toNat && c.toNat ≤ 0x200a) ||
  c.toNat == 0x2028 || c.toNat == 0x2029 || c.toNat == 0x202f ||
  c.toNat == 0x205f || c.toNat == 0x3000

/-- Models CPython's per-character `str.isdigit` test.  CPython accepts every
character whose Unicode `Numeric_Type` is `Digit` or `Decimal`; this model
restricts the Unicode table to the ASCII digits plus the blocks exercised in
this development (Arabic-Indic, extended Arabic-Indic, Devanagari, Bengali,
fullwidth digits, and the superscript/subscript digits).  On these characters
it agrees exactly with CPython; in particular it is exact on all of ASCII. -/
def pyIsDigit (c : Char) : Bool :=
  c.isDigit ||
  (0x660 ≤ c.toNat && c.toNat ≤ 0x669) || (0x6f0 ≤ c.toNat && c.toNat ≤ 0x6f9) ||
  (0x966 ≤ c.toNat && c.toNat ≤ 0x96f) || (0x9e6 ≤ c.toNat && c.toNat ≤ 0x9ef) ||
  (0xff10 ≤ c.toNat && c.toNat ≤ 0xff19) ||
  c.toNat == 0xb2 || c.toNat == 0xb3 || c.toNat == 0xb9 ||
  c.toNat == 0x2070 || (0x2074 ≤ c.toNat && c.toNat ≤ 0x2079) ||
  (0x2080 ≤ c.toNat && c.toNat ≤ 0x2089)

/-- Drop leading Python whitespace from a character list (`str.lstrip`). -/
def pyLStrip (l : List Char) : List Char := l.dropWhile pyIsSpace

/-- Drop trailing Python whitespace from a character list (`str.rstrip`). -/
def pyRStrip (l : List Char) : List Char := (l.reverse.dropWhile pyIsSpace).reverse

/-- Python `str.strip()` on a character list: drop whitespace from both ends. -/
def pyStripList (l : List Char) : List Char := pyRStrip (pyLStrip l)

/-- Models Python `s.strip()` with no argument. -/
def pyStrip (s : String) : String := ⟨pyStripList s.data⟩

/-- Models Python `s.isdigit()`: true iff `s` is non-empty and every character
passes the per-character digit test. -/
def pyIsDigitStr (s : String) : Bool := !s.data.isEmpty && s.data.all pyIsDigit

/-- Models Python `s.upper()`.  CPython uppercases per the Unicode table; the
strings this program uppercases (Discord status words) are ASCII, where
`Char.toUpper` agrees with CPython. -/
def pyUpper (s : String) : String := ⟨s.data.map Char.toUpper⟩

/-- Equality of validation results is decidable (used to evaluate the
validator on concrete inputs). -/
instance (a b : Except String String) : Decidable (a = b) :=
  match a, b with
  | Except.error x, Except.error y =>
    if h : x = y then isTrue (by rw [h]) else isFalse (fun hc => by cases hc; exact h rfl)
  | Except.error _, Except.ok _ => isFalse (fun hc => by cases hc)
  | Except.ok _, Except.error _ => isFalse (fun hc => by cases hc)
  | Except.ok x, Except.ok y =>
    if h : x = y then isTrue (by rw [h]) else isFalse (fun hc => by cases hc; exact h rfl)

/-- Models `sanitize_user_id` (lanyard_server.py lines 29–38): strip the input,
then fail on empty / non-digit / bad length, else return the stripped id.
A raised `ValueError(msg)` is modelled as `Except.error msg`. -/
def sanitize_user_id (user_id : String) : Except String String :=
  let clean_id := pyStrip user_id
  if clean_id = "" then Except.error "User ID cannot be empty"
  else if !pyIsDigitStr clean_id then Except.error "User ID must contain only digits"
  else if clean_id.length < 17 ∨ 20 < clean_id.length then
    Except.error "User ID must be between 17-20 digits"
  else Except.ok clean_id

/-- The `discord_user` JSON record; every key may be absent. -/
structure DiscordUser where
  username : Option String
  id : Option String
  discriminator : Option String
deriving DecidableEq

/-- The `spotify.timestamps` JSON record (epoch milliseconds). -/
structure SpotifyTimestamps where
  start : Option Int
  «end» : Option Int
deriving DecidableEq

/-- The `spotify` JSON record; every key may be absent. -/
structure Spotify where
  song : Option String
  artist : Option String
  album : Option String
  album_art_url : Option String
  track_id : Option String
  timestamps : Option SpotifyTimestamps
deriving DecidableEq

/-- Python truthiness of the `spotify` dict: a dict is falsy iff it has no
keys, i.e. (in this model) every field is absent. -/
def Spotify.isEmpty (s : Spotify) : Bool :=
  s.song.isNone && s.artist.isNone && s.album.isNone &&
  s.album_art_url.isNone && s.track_id.isNone && s.timestamps.isNone

/-- Python truthiness of `data.get("spotify")`: falsy when the key is
absent (`None`) or when the dict is empty. -/
def spotifyTruthy : Option Spotify → Bool
  | none => false
  | some sp => ! sp.isEmpty

/-- One entry of the `activities` JSON array; every key may be absent. -/
structure Activity where
  name : Option String
  type : Option Int
  details : Option String
  state : Option String
deriving DecidableEq

/-- The `data` object of a Lanyard API response; every key may be absent.
`kv` is an association list, preserving the JSON object's iteration order. -/
structure LanyardData where
  discord_user : Option DiscordUser
  discord_status : Option String
  active_on_discord_desktop : Option Bool
  active_on_discord_mobile : Option Bool
  listening_to_spotify : Option Bool
  spotify : Option Spotify
  activities : Option (List Activity)
  kv : Option (List (String × String))
deriving DecidableEq

/-- A `data` object with every key absent (the empty JSON object). -/
def emptyData : LanyardData := ⟨none, none, none, none, none, none, none, none⟩

/-- A `discord_user` record with every key absent. -/
def emptyUser : DiscordUser := ⟨none, none, none⟩

/-- A `spotify` record with every key absent (the empty dict, which is falsy). -/
def emptySpotify : Spotify := ⟨none, none, none, none, none, none⟩

/-- A `timestamps` record with both keys absent. -/
def emptyTimestamps : SpotifyTimestamps := ⟨none, none⟩

/-- The decoded top-level JSON body `{success: bool, data: {...}}`. -/
structure ApiResult where
  success : Option Bool
  data : Option LanyardData
deriving DecidableEq

/-- The outcome of the single outbound HTTP GET a tool performs:
a decoded response with its status code, a timeout
(`httpx.TimeoutException`), or any other transport-level failure
(caught by the final `except Exception` arm). -/
inductive Upstream where
  | response (status : Nat) (body : ApiResult)
  | timeout
  | transport (msg : String)
deriving DecidableEq

/-- The constant `LANYARD_API_BASE` (line 24). -/
def LANYARD_API_BASE : String := "https://api.lanyard.rest/v1"

/-- Seconds/date fields of a UTC `datetime`: (year, month, day, hour, minute,
second). -/
abbrev DateTuple := Int × Int × Int × Int × Int × Int

/-- Models `datetime.fromtimestamp(timestamp_ms / 1000, tz=timezone.utc)`
truncated to whole seconds (the precision `strftime` displays).  CPython
raises (OverflowError/OSError/ValueError) when the instant falls outside the
`datetime` range 0001-01-01 .. 9999-12-31; that is the `none` case.  The
civil-from-days conversion is the standard proleptic-Gregorian algorithm.
(The Python expression divides by 1000 in floating point; for inputs whose
displayed second is not affected by that rounding — all inputs used in this
development — integer floor division agrees with it.) -/
def pyDatetimeUTC (ms : Int) : Option DateTuple :=
  let secs : Int := Int.fdiv ms 1000
  if secs < -62135596800 ∨ 253402300799 < secs then none
  else
    let days : Int := Int.fdiv secs 86400
    let sod : Int := secs - 86400 * days
    let hh : Int := sod / 3600
    let mm : Int := (sod % 3600) / 60
    let ss : Int := sod % 60
    let z : Int := days + 719468
    let era : Int := z / 146097
    let doe : Int := z - era * 146097
    let yoe : Int := (doe - doe / 1460 + doe / 36524 - doe / 146096) / 365
    let y : Int := yoe + era * 400
    let doy : Int := doe - (365 * yoe + yoe / 4 - yoe / 100)
    let mp : Int := (5 * doy + 2) / 153
    let d : Int := doy - (153 * mp + 2) / 5 + 1
    let m : Int := if mp < 10 then mp + 3 else mp - 9
    some (if m ≤ 2 then y + 1 else y, m, d, hh, mm, ss)

/-- Zero-pad a (non-negative) field to two digits, as `strftime` does for
`%m %d %H %M %S`. -/
def pad2 (n : Int) : String := (if n < 10 then "0" else "") ++ toString n

/-- Zero-pad the year to four digits (`strftime` `%Y`; zero-padding of years
below 1000 is platform-dependent in CPython and modelled as padded). -/
def pad4 (n : Int) : String :=
  (if n < 10 then "000" else if n < 100 then "00" else if n < 1000 then "0" else "")
    ++ toString n

/-- Models `format_timestamp` (lines 40–46): render a millisecond epoch value as
`YYYY-MM-DD HH:MM:SS UTC`; the bare `except` that catches any conversion
failure and returns "Unknown" is the `none` branch. -/
def format_timestamp (timestamp_ms : Int) : String :=
  match pyDatetimeUTC timestamp_ms with
  | none => "Unknown"
  | some (y, mo, d, h, mi, s) =>
    pad4 y ++ "-" ++ pad2 mo ++ "-" ++ pad2 d ++ " " ++
    pad2 h ++ ":" ++ pad2 mi ++ ":" ++ pad2 s ++ " UTC"

/-- Models `format_spotify_data` (lines 48–68).  `if not spotify` is the emptiness
(falsiness) test on the dict; `timestamps.get("start")` / `.get("end")` are
truthy iff present with a non-zero value. -/
def format_spotify_data (spotify : Spotify) : String :=
  if spotify.isEmpty then "Not listening to Spotify"
  else
    let song := spotify.song.getD "Unknown"
    let artist := spotify.artist.getD "Unknown"
    let album := spotify.album.getD "Unknown"
    let timestamps := spotify.timestamps.getD emptyTimestamps
    "🎵 Spotify Activity:\n" ++
    "  Song: " ++ song ++ "\n" ++
    "  Artist: " ++ artist ++ "\n" ++
    "  Album: " ++ album ++ "\n" ++
    (if timestamps.start.getD 0 ≠ 0 then
      "  Started: " ++ format_timestamp (timestamps.start.getD 0) ++ "\n" else "") ++
    (if timestamps.«end».getD 0 ≠ 0 then
      "  Ends: " ++ format_timestamp (timestamps.«end».getD 0) ++ "\n" else "")

/-- The static `type_names` table of `format_activities` (lines 80–88),
with its `.get(activity_type, "Activity")` default. -/
def type_name (t : Int) : String :=
  if t = 0 then "Playing"
  else if t = 1 then "Streaming"
  else if t = 2 then "Listening to"
  else if t = 3 then "Watching"
  else if t = 4 then "Custom Status"
  else if t = 5 then "Competing in"
  else "Activity"

/-- What one iteration of the `format_activities` loop (lines 76–95) appends
for the 1-based index `i`: the ordinal line, then a Details line when
`details` is present and truthy (non-empty), then a State line likewise. -/
def activity_entry (i : Nat) (a : Activity) : String :=
  "\n" ++ toString i ++ ". " ++ type_name (a.type.getD 0) ++ " " ++
    a.name.getD "Unknown" ++ "\n" ++
  (if a.details.getD "" ≠ "" then "   Details: " ++ a.details.getD "" ++ "\n" else "") ++
  (if a.state.getD "" ≠ "" then "   State: " ++ a.state.getD "" ++ "\n" else "")

/-- Models `format_activities` (lines 70–97): "No activities" for an empty (falsy)
list, else the loop `for i, activity in enumerate(activities, 1)`
accumulating into `output`. -/
def format_activities (activities : List Activity) : String :=
  if activities.isEmpty then "No activities"
  else (activities.enumFrom 1).foldl (fun output p => output ++ activity_entry p.1 p.2) ""

/-- The f-string `f"  {key}: {value}\n"` appended per entry of the KV loop
(lines 105–106). -/
def kv_line (p : String × String) : String := "  " ++ p.1 ++ ": " ++ p.2 ++ "\n"

/-- Models `format_kv_data` (lines 99–107): "No KV data" for an empty (falsy)
mapping, else a header line and one entry line per pair, in iteration
order. -/
def format_kv_data (kv : List (String × String)) : String :=
  if kv.isEmpty then "No KV data"
  else kv.foldl (fun output p => output ++ kv_line p) "📝 Custom KV Data:\n"

/-- The status-emoji table of `get_user_presence` (lines 151–157), with its
`.get(status, '⚪')` default. -/
def status_emoji (status : String) : String :=
  if status = "online" then "🟢"
  else if status = "idle" then "🟡"
  else if status = "dnd" then "🔴"
  else if status = "offline" then "⚫"
  else "⚪"

/-- The header f-string of `get_user_presence` (lines 135–147, up to the
closing parenthesis): resolved display name and user id. -/
def presence_header (clean_id : String) (data : LanyardData) : String :=
  let discord_user := data.discord_user.getD emptyUser
  let username := discord_user.username.getD "Unknown"
  let user_id_str := discord_user.id.getD clean_id
  let discriminator := discord_user.discriminator.getD "0"
  let user_display :=
    if discriminator = "0" then "@" ++ username else username ++ "#" ++ discriminator
  "✅ Discord Presence for " ++ user_display ++ " (" ++ user_id_str ++ ")"

/-- Everything `get_user_presence` appends after the header (lines 147–182):
status line, device lines, optional Spotify block, optional Activities
block, optional KV block. -/
def presence_rest (data : LanyardData) : String :=
  let status := data.discord_status.getD "unknown"
  "\n\n" ++ "Status: " ++ status_emoji status ++ " " ++ pyUpper status ++ "\n\n" ++
  (if data.active_on_discord_desktop.getD false then "💻 Active on Desktop\n" else "") ++
  (if data.active_on_discord_mobile.getD false then "📱 Active on Mobile\n" else "") ++
  "\n" ++
  (if data.listening_to_spotify.getD false && spotifyTruthy data.spotify then
    format_spotify_data (data.spotify.getD emptySpotify) ++ "\n"
  else "") ++
  (let activities := data.activities.getD []
   if !activities.isEmpty then "🎮 Activities:" ++ format_activities activities ++ "\n" else "") ++
  (let kv := data.kv.getD []
   if !kv.isEmpty then format_kv_data kv else "")

/-- The full string `output` built by `get_user_presence` on a successful
response (lines 135–183), before the final `.strip()`. -/
def presence_output (clean_id : String) (data : LanyardData) : String :=
  presence_header clean_id data ++ presence_rest data

/-- The string `get_user_spotify` builds when the user is listening
(lines 231–241), before the final `.strip()`. -/
def spotify_success_output (username : String) (sp : Spotify) : String :=
  "✅ Spotify Status for " ++ username ++ "\n\n" ++ format_spotify_data sp ++
  (if sp.album_art_url.getD "" ≠ "" then
    "  Album Art: " ++ sp.album_art_url.getD "" ++ "\n" else "") ++
  (if sp.track_id.getD "" ≠ "" then
    "  Track URL: https://open.spotify.com/track/" ++ sp.track_id.getD "" ++ "\n" else "")

/-- The body of `get_user_spotify` from the decoded `data` object onward
(lines 221–243): the "not listening" early return fires when
`listening_to_spotify` is falsy or the `spotify` dict is falsy. -/
def spotify_render (data : LanyardData) : String :=
  let discord_user := data.discord_user.getD emptyUser
  let username := discord_user.username.getD "Unknown"
  let listening := data.listening_to_spotify.getD false
  let spotify := data.spotify
  if !listening || !spotifyTruthy spotify then
    "🎵 " ++ username ++ " is not currently listening to Spotify"
  else pyStrip (spotify_success_output username (spotify.getD emptySpotify))

/-- The body of `get_user_kv` from the decoded `data` object onward
(lines 280–291). -/
def kv_render (data : LanyardData) : String :=
  let discord_user := data.discord_user.getD emptyUser
  let username := discord_user.username.getD "Unknown"
  let kv := data.kv.getD []
  if kv.isEmpty then "📝 " ++ username ++ " has no custom KV data set"
  else pyStrip ("✅ KV Data for " ++ username ++ "\n\n" ++ format_kv_data kv)

/-- Models `get_user_presence` (lines 111–198) as a pure function of the argument
and the upstream outcome.  The second component is the list of URLs the
call requested.  `raise_for_status` raises exactly on a non-2xx status. -/
def get_user_presence (user_id : String) (upstream : Upstream) : String × List String :=
  match sanitize_user_id user_id with
  | Except.error e => ("❌ Invalid user ID: " ++ e, [])
  | Except.ok clean_id =>
    let url := LANYARD_API_BASE ++ "/users/" ++ clean_id
    match upstream with
    | Upstream.response status result =>
      if 200 ≤ status ∧ status < 300 then
        if result.success.getD false = false then
          ("❌ API returned unsuccessful response for user " ++ clean_id, [url])
        else
          (pyStrip (presence_output clean_id (result.data.getD emptyData)), [url])
      else if status = 404 then
        ("❌ User not found: " ++ clean_id ++ " (Discord user may not be using Lanyard)", [url])
      else if status = 429 then
        ("❌ Rate limit exceeded. Please try again later.", [url])
      else
        ("❌ API Error: HTTP " ++ toString status, [url])
    | Upstream.timeout => ("⏱️ Request timed out while fetching user " ++ clean_id, [url])
    | Upstream.transport msg => ("❌ Error: " ++ msg, [url])

/-- Models `get_user_spotify` (lines 200–257), like `get_user_presence`. -/
def get_user_spotify (user_id : String) (upstream : Upstream) : String × List String :=
  match sanitize_user_id user_id with
  | Except.error e => ("❌ Invalid user ID: " ++ e, [])
  | Except.ok clean_id =>
    let url := LANYARD_API_BASE ++ "/users/" ++ clean_id
    match upstream with
    | Upstream.response status result =>
      if 200 ≤ status ∧ status < 300 then
        if result.success.getD false = false then
          ("❌ API returned unsuccessful response for user " ++ clean_id, [url])
        else
          (spotify_render (result.data.getD emptyData), [url])
      else if status = 404 then
        ("❌ User not found: " ++ clean_id, [url])
      else if status = 429 then
        ("❌ Rate limit exceeded. Please try again later.", [url])
      else
        ("❌ API Error: HTTP " ++ toString status, [url])
    | Upstream.timeout => ("⏱️ Request timed out while fetching user " ++ clean_id, [url])
    | Upstream.transport msg => ("❌ Error: " ++ msg, [url])

/-- Models `get_user_kv` (lines 259–305), like `get_user_presence`. -/
def get_user_kv (user_id : String) (upstream : Upstream) : String × List String :=
  match sanitize_user_id user_id with
  | Except.error e => ("❌ Invalid user ID: " ++ e, [])
  | Except.ok clean_id =>
    let url := LANYARD_API_BASE ++ "/users/" ++ clean_id
    match upstream with
    | Upstream.response status result =>
      if 200 ≤ status ∧ status < 300 then
        if result.success.getD false = false then
          ("❌ API returned unsuccessful response for user " ++ clean_id, [url])
        else
          (kv_render (result.data.getD emptyData), [url])
      else if status = 404 then
        ("❌ User not found: " ++ clean_id, [url])
      else if status = 429 then
        ("❌ Rate limit exceeded. Please try again later.", [url])
      else
        ("❌ API Error: HTTP " ++ toString status, [url])
    | Upstream.timeout => ("⏱️ Request timed out while fetching user " ++ clean_id, [url])
    | Upstream.transport msg => ("❌ Error: " ++ msg, [url])

/-- Concatenation of a list of strings, in order. -/
def strJoin : List String → String
  | [] => ""
  | s :: rest => s ++ strJoin rest

/-- A 17-character string of the Arabic-Indic digit TWO (U+0662); every
character is a non-ASCII Unicode decimal digit. -/
def arabicSeventeen : String := ⟨List.replicate 17 '٢'⟩

/-- A payload whose `discord_user` is alice with discriminator "0". -/
def aliceZero : LanyardData :=
  { emptyData with discord_user := some ⟨some "alice", some "111", some "0"⟩ }

/-- A payload whose `discord_user` is alice with discriminator "1234". -/
def alice1234 : LanyardData :=
  { emptyData with discord_user := some ⟨some "alice", some "111", some "1234"⟩ }

/-- A spotify record carrying only a `start` timestamp of `0` (present but
falsy in Python). -/
def spotifyZeroStart : Spotify := ⟨some "S", none, none, none, none, some ⟨some 0, none⟩⟩

/-- An activity whose `details` key is present but holds the empty string
(present but falsy in Python). -/
def activityEmptyDetails : Activity := ⟨some "X", some 0, some "", none⟩

/-- The kv mapping {"a": "1", "b": "2"} of the specification's example. -/
def kvAB : List (String × String) := [("a", "1"), ("b", "2")]

/-- A spotify record with every key present. -/
def fullSpotify : Spotify :=
  ⟨some "A", some "B", some "C", some "D", some "E", some ⟨some 1, some 2⟩⟩

/-- The activity list of the specification's example. -/
def exampleActivities : List Activity :=
  [⟨some "Game A", some 0, none, none⟩, ⟨some "Song B", some 2, none, some "Chill"⟩]

/-- A single activity with an unmapped type value and truthy details/state. -/
def exampleActivity7 : Activity := ⟨some "A", some 7, some "d", some "s"⟩

/-- A spotify record with a start timestamp of 1700000000000 ms
(2023-11-14 22:13:20 UTC). -/
def spotifyStarted : Spotify :=
  ⟨some "Song", some "Artist", some "Album", none, none, some ⟨some 1700000000000, none⟩⟩

/-- A spotify record in which only the song is present. -/
def spotifyOnlySong : Spotify := ⟨some "OnlySong", none, none, none, none, none⟩

/-- An activity record with every key absent. -/
def activityNameless : Activity := ⟨none, none, none, none⟩

/-- The decoded body of a successful-looking response with no `data`. -/
def emptyBody : ApiResult := ⟨none, none⟩

/- ---------------------------------------------------------------- -/
/- Helper lemmas -/
/- ---------------------------------------------------------------- -/

theorem strJoin_cons (s : String) (l : List String) : strJoin (s :: l) = s ++ strJoin l := rfl

theorem foldl_append_strJoin {α : Type} (f : α → String) (l : List α) :
    ∀ init : String, l.foldl (fun acc x => acc ++ f x) init = init ++ strJoin (l.map f) := by
  induction l with
  | nil => intro init; simp [strJoin, String.append_empty]
  | cons x xs ih =>
    intro init
    simp only [List.foldl_cons, List.map_cons, strJoin_cons]
    rw [ih (init ++ f x), String.append_assoc]

theorem head_of_data_append (x y : String) (c : Char) (t : List Char)
    (hx : x.data = c :: t) : (x ++ y).data = c :: (t ++ y.data) := by
  rw [String.data_append, hx, List.cons_append]

theorem mem_data_append_left {c : Char} (x y : String) (h : c ∈ x.data) :
    c ∈ (x ++ y).data := by
  rw [String.data_append]; exact List.mem_append_left _ h

theorem exists_head (x y : String)
    (hx : ∃ c t, x.data = c :: t ∧ pyIsSpace c = false) :
    ∃ c t, (x ++ y).data = c :: t ∧ pyIsSpace c = false := by
  obtain ⟨c, t, h1, h2⟩ := hx
  exact ⟨c, t ++ y.data, head_of_data_append x y c t h1, h2⟩

theorem pyStrip_append (a b : String)
    (ha : ∃ c t, a.data = c :: t ∧ pyIsSpace c = false)
    (hb : ∃ d ∈ b.data, pyIsSpace d = false) :
    pyStrip (a ++ b) = a ++ ⟨pyRStrip b.data⟩ := by
  obtain ⟨c, t, hat, hc⟩ := ha
  obtain ⟨d, hd, hds⟩ := hb
  apply String.ext
  show pyStripList (a ++ b).data = (a ++ (⟨pyRStrip b.data⟩ : String)).data
  rw [String.data_append, String.data_append, hat, List.cons_append]
  show pyRStrip (List.dropWhile pyIsSpace (c :: (t ++ b.data))) = _
  rw [List.dropWhile_cons, if_neg (by simp [hc])]
  unfold pyRStrip
  rw [← List.cons_append, ← hat, List.reverse_append, List.dropWhile_append]
  have hne : (b.data.reverse.dropWhile pyIsSpace).isEmpty = false := by
    cases hdw : b.data.reverse.dropWhile pyIsSpace with
    | nil =>
      have := List.dropWhile_eq_nil_iff.mp hdw d (List.mem_reverse.mpr hd)
      simp [hds] at this
    | cons z zs => rfl
  rw [if_neg (by simp [hne]), List.reverse_append, List.reverse_reverse]

/- ---------------------------------------------------------------- -/
/- Claim theorems -/
/- ---------------------------------------------------------------- -/

/-- Claim C1: for every input string whose whitespace-trimmed form is a
non-empty string of ASCII digits of length between 17 and 20 inclusive,
`sanitize_user_id` succeeds and returns exactly the trimmed digit string
(no numeric parsing is performed — the digit text is returned unchanged,
so values exceeding the 64-bit range pass through intact). -/
theorem sanitize_accepts_ascii_digit_ids (s : String)
    (hne : (pyStrip s).data ≠ [])
    (hdig : ∀ c ∈ (pyStrip s).data, c.isDigit = true)
    (hlen1 : 17 ≤ (pyStrip s).length) (hlen2 : (pyStrip s).length ≤ 20) :
    sanitize_user_id s = Except.ok (pyStrip s) := by
  unfold sanitize_user_id
  have h0 : ¬(pyStrip s = "") := fun he => hne (by rw [he])
  have h1 : pyIsDigitStr (pyStrip s) = true := by
    unfold pyIsDigitStr
    rw [Bool.and_eq_true]
    constructor
    · cases hd : (pyStrip s).data with
      | nil => exact absurd hd hne
      | cons a l => simp
    · rw [List.all_eq_true]
      intro c hc
      unfold pyIsDigit
      simp [hdig c hc]
  have h2 : ¬((pyStrip s).length < 17 ∨ 20 < (pyStrip s).length) := by omega
  simp [h0, h1, h2]

/-- Witness for C1, at a 20-digit value exceeding the unsigned 64-bit range
(2^64 − 1 = 18446744073709551615 < 99999999999999999999) with trailing
whitespace to be trimmed. -/
theorem sanitize_accepts_ascii_digit_ids_witness :
    (∀ c ∈ (pyStrip "99999999999999999999 ").data, c.isDigit = true) ∧
    pyStrip "99999999999999999999 " = "99999999999999999999" ∧
    sanitize_user_id "99999999999999999999 " =
      Except.ok (pyStrip "99999999999999999999 ") :=
  ⟨by decide, by decide,
    sanitize_accepts_ascii_digit_ids "99999999999999999999 "
      (by decide) (by decide) (by decide) (by decide)⟩

/-- Counterexample to claim C2 as stated: `arabicSeventeen` consists of 17
Arabic-Indic digits — every one of its characters fails the ASCII-digit
test — yet `sanitize_user_id` accepts it and returns it, because CPython's
`str.isdigit` accepts Unicode decimal digits.  So an input whose trimmed
form is non-empty and contains (only) non-ASCII-digit characters does not
fail with the non-digit reason, and a string of non-ASCII characters is
accepted. -/
theorem sanitize_accepts_unicode_digits :
    (∀ c ∈ arabicSeventeen.data, c.isDigit = false) ∧
    pyStrip arabicSeventeen = arabicSeventeen ∧
    arabicSeventeen ≠ "" ∧
    sanitize_user_id arabicSeventeen = Except.ok arabicSeventeen := by decide

/-- Claim C2, amended: for every input string whose trimmed form is
non-empty and contains at least one character that is not a digit in the
sense of Python's `str.isdigit` (a strict superset of the ASCII digits that
also contains the Unicode decimal digits), validation fails with the
non-digit reason.  Strings of non-ASCII Unicode digits of valid length are
accepted (see the counterexample), so "non-digit" means non-`isdigit`, not
non-ASCII-digit. -/
theorem sanitize_rejects_non_pydigit (s : String)
    (hne : pyStrip s ≠ "")
    (hbad : ∃ c ∈ (pyStrip s).data, pyIsDigit c = false) :
    sanitize_user_id s = Except.error "User ID must contain only digits" := by
  unfold sanitize_user_id
  have h1 : pyIsDigitStr (pyStrip s) = false := by
    unfold pyIsDigitStr
    obtain ⟨c, hc, hcd⟩ := hbad
    rw [Bool.eq_false_iff]
    intro hcontra
    rw [Bool.and_eq_true, List.all_eq_true] at hcontra
    have := hcontra.2 c hc
    simp [hcd] at this
  simp [hne, h1]

/-- Witness for the amended C2, at an input ending in a letter. -/
theorem sanitize_rejects_non_pydigit_witness :
    pyStrip "12345678901234567x" ≠ "" ∧
    (∃ c ∈ (pyStrip "12345678901234567x").data, pyIsDigit c = false) ∧
    sanitize_user_id "12345678901234567x" =
      Except.error "User ID must contain only digits" :=
  ⟨by decide, by decide,
    sanitize_rejects_non_pydigit "12345678901234567x" (by decide) (by decide)⟩

/-- Claim C10: for every input string that fails identifier validation,
each of the three tool operations returns the invalid-identifier text and
issues no outbound HTTP request (the list of requested URLs is empty),
whatever the upstream would have answered. -/
theorem invalid_id_no_request (user_id e : String) (upstream : Upstream)
    (h : sanitize_user_id user_id = Except.error e) :
    get_user_presence user_id upstream = ("❌ Invalid user ID: " ++ e, []) ∧
    get_user_spotify user_id upstream = ("❌ Invalid user ID: " ++ e, []) ∧
    get_user_kv user_id upstream = ("❌ Invalid user ID: " ++ e, []) := by
  refine ⟨?_, ?_, ?_⟩ <;> simp [get_user_presence, get_user_spotify, get_user_kv, h]

/-- Witness for C10, at the 16-digit (too short) identifier "1234567890123456". -/
theorem invalid_id_no_request_witness :
    sanitize_user_id "1234567890123456" =
      Except.error "User ID must be between 17-20 digits" ∧
    get_user_presence "1234567890123456" Upstream.timeout =
      ("❌ Invalid user ID: " ++ "User ID must be between 17-20 digits", []) :=
  ⟨by decide,
    (invalid_id_no_request "1234567890123456" "User ID must be between 17-20 digits"
      Upstream.timeout (by decide)).1⟩

/-- Claim C9: whenever `listening_to_spotify` resolves to false, the
Spotify-only renderer returns the fixed "not listening" sentence naming the
username, and its output does not depend on the `spotify` record at all:
two payloads differing only in spotify subfields render identically.
Likewise, when the `spotify` record is absent the sentence is returned
whatever the listening flag. -/
theorem spotify_not_listening_independent :
    (∀ (d : LanyardData) (s1 s2 : Option Spotify),
      d.listening_to_spotify.getD false = false →
      spotify_render { d with spotify := s1 } = spotify_render { d with spotify := s2 } ∧
      spotify_render { d with spotify := s1 } =
        "🎵 " ++ (d.discord_user.getD emptyUser).username.getD "Unknown" ++
          " is not currently listening to Spotify") ∧
    (∀ d : LanyardData, d.spotify = none →
      spotify_render d =
        "🎵 " ++ (d.discord_user.getD emptyUser).username.getD "Unknown" ++
          " is not currently listening to Spotify") := by
  constructor
  · intro d s1 s2 h
    cases s1 <;> cases s2 <;> simp [spotify_render, spotifyTruthy, h]
  · intro d h
    simp [spotify_render, spotifyTruthy, h]

/-- Witness for C9: with the listening flag absent (hence falsy), a fully
populated spotify record renders the same as an absent one. -/
theorem spotify_not_listening_independent_witness :
    emptyData.listening_to_spotify.getD false = false ∧
    spotify_render { emptyData with spotify := some fullSpotify } =
      spotify_render { emptyData with spotify := none } :=
  ⟨by decide,
    (spotify_not_listening_independent.1 emptyData (some fullSpotify) none (by decide)).1⟩

/-- Counterexample to claim C5 as stated: on the kv mapping
{"a": "1", "b": "2"} the KV block is not the two lines `a: 1` and `b: 2`.
The code also emits a header line "📝 Custom KV Data:" and indents every
entry line by two spaces, so the block holds three newline characters, not
one. -/
theorem kv_block_header_and_indent :
    format_kv_data kvAB = "📝 Custom KV Data:\n  a: 1\n  b: 2\n" ∧
    format_kv_data kvAB ≠ "a: 1\nb: 2" ∧
    format_kv_data kvAB ≠ "a: 1\nb: 2\n" ∧
    (format_kv_data kvAB).data.count '\n' = 3 := by decide

/-- Claim C5, amended: for the empty mapping the block is the fixed string
"No KV data"; for every non-empty mapping it is the header line
"📝 Custom KV Data:" followed by one two-space-indented `  key: value` line
per entry, in the mapping's iteration order; in particular the example
mapping renders as the header line followed by `  a: 1` then `  b: 2`. -/
theorem kv_block_format :
    format_kv_data [] = "No KV data" ∧
    (∀ kv : List (String × String), kv ≠ [] →
      format_kv_data kv = "📝 Custom KV Data:\n" ++ strJoin (kv.map kv_line)) ∧
    (∀ k v : String, kv_line (k, v) = "  " ++ k ++ ": " ++ v ++ "\n") ∧
    format_kv_data kvAB = "📝 Custom KV Data:\n  a: 1\n  b: 2\n" := by
  refine ⟨rfl, ?_, fun k v => rfl, by decide⟩
  intro kv hkv
  unfold format_kv_data
  rw [if_neg (by cases kv with | nil => exact absurd rfl hkv | cons a l => simp)]
  exact foldl_append_strJoin kv_line kv "📝 Custom KV Data:\n"

/-- Witness for the amended C5 at a one-entry mapping. -/
theorem kv_block_format_witness :
    ([("x", "y")] : List (String × String)) ≠ [] ∧
    format_kv_data [("x", "y")] = "📝 Custom KV Data:\n" ++ strJoin ([("x", "y")].map kv_line) :=
  ⟨by decide, kv_block_format.2.1 [("x", "y")] (by decide)⟩

/-- Counterexample to claim C8 as stated: an activity whose `details` key is
present but holds the empty string produces no Details line, because the
code tests the value for truthiness, not presence. -/
theorem activities_empty_details_omitted :
    activityEmptyDetails.details = some "" ∧
    format_activities [activityEmptyDetails] = "\n1. Playing X\n" ∧
    format_activities [activityEmptyDetails] ≠ "\n1. Playing X\n   Details: \n" := by decide

/-- Claim C8, amended: the Activities block is "No activities" for the empty
sequence; otherwise it is the concatenation, over the activities in
original order enumerated from 1, of a per-activity entry consisting of the
ordinal line `{ordinal}. {TypeLabel} {name}` (surrounded by newlines) where
TypeLabel maps type 0→Playing, 1→Streaming, 2→"Listening to", 3→Watching,
4→"Custom Status", 5→"Competing in" and any other integer→"Activity",
followed by an indented Details line when `details` is present and
non-empty and an indented State line when `state` is present and non-empty
(a present-but-empty value yields no line). -/
theorem activities_block_format :
    format_activities [] = "No activities" ∧
    (∀ acts : List Activity, acts ≠ [] →
      format_activities acts =
        strJoin ((acts.enumFrom 1).map (fun p => activity_entry p.1 p.2))) ∧
    (∀ (i : Nat) (a : Activity), activity_entry i a =
      "\n" ++ toString i ++ ". " ++ type_name (a.type.getD 0) ++ " " ++
        a.name.getD "Unknown" ++ "\n" ++
      (if a.details.getD "" ≠ "" then "   Details: " ++ a.details.getD "" ++ "\n" else "") ++
      (if a.state.getD "" ≠ "" then "   State: " ++ a.state.getD "" ++ "\n" else "")) ∧
    (type_name 0 = "Playing" ∧ type_name 1 = "Streaming" ∧ type_name 2 = "Listening to" ∧
      type_name 3 = "Watching" ∧ type_name 4 = "Custom Status" ∧
      type_name 5 = "Competing in" ∧
      (∀ t : Int, t ≠ 0 → t ≠ 1 → t ≠ 2 → t ≠ 3 → t ≠ 4 → t ≠ 5 →
        type_name t = "Activity")) ∧
    format_activities exampleActivities =
      "\n1. Playing Game A\n\n2. Listening to Song B\n   State: Chill\n" := by
  refine ⟨rfl, ?_, fun i a => rfl,
    ⟨rfl, rfl, rfl, rfl, rfl, rfl, ?_⟩, by decide⟩
  · intro acts hacts
    cases acts with
    | nil => exact absurd rfl hacts
    | cons a l =>
      show ((List.enumFrom 1 (a :: l)).foldl
        (fun output p => output ++ activity_entry p.1 p.2) "") = _
      have h1 := foldl_append_strJoin (fun p : Nat × Activity => activity_entry p.1 p.2)
        (List.enumFrom 1 (a :: l)) ""
      rw [h1, String.empty_append]
  · intro t h0 h1 h2 h3 h4 h5
    unfold type_name
    rw [if_neg h0, if_neg h1, if_neg h2, if_neg h3, if_neg h4, if_neg h5]

/-- Witness for the amended C8, at a one-activity list with an unmapped
type value. -/
theorem activities_block_format_witness :
    [exampleActivity7] ≠ [] ∧
    format_activities [exampleActivity7] =
      strJoin ((([exampleActivity7] : List Activity).enumFrom 1).map
        (fun p => activity_entry p.1 p.2)) ∧
    type_name 7 = "Activity" :=
  ⟨by decide,
    activities_block_format.2.1 _ (by decide),
    activities_block_format.2.2.2.1.2.2.2.2.2.2 7
      (by decide) (by decide) (by decide) (by decide) (by decide) (by decide)⟩

/-- Claim C3: for every tool operation invoked with a valid identifier, an
upstream HTTP 404 yields a returned result string containing the not-found
marker and the requested identifier; 429 yields the rate-limit sentence; a
timeout yields the timeout sentence; and any other non-2xx status yields
the generic HTTP-error text carrying the status code.  All of these are
ordinary returned strings of the tool functions (first component), never
call-level failures. -/
theorem valid_id_upstream_error_mapping
    (uid cid : String) (body : ApiResult) (status : Nat)
    (hs : sanitize_user_id uid = Except.ok cid) :
    ((get_user_presence uid (Upstream.response 404 body)).1 =
        "❌ User not found: " ++ cid ++ " (Discord user may not be using Lanyard)" ∧
      (get_user_spotify uid (Upstream.response 404 body)).1 = "❌ User not found: " ++ cid ∧
      (get_user_kv uid (Upstream.response 404 body)).1 = "❌ User not found: " ++ cid) ∧
    ((get_user_presence uid (Upstream.response 429 body)).1 =
        "❌ Rate limit exceeded. Please try again later." ∧
      (get_user_spotify uid (Upstream.response 429 body)).1 =
        "❌ Rate limit exceeded. Please try again later." ∧
      (get_user_kv uid (Upstream.response 429 body)).1 =
        "❌ Rate limit exceeded. Please try again later.") ∧
    ((get_user_presence uid Upstream.timeout).1 =
        "⏱️ Request timed out while fetching user " ++ cid ∧
      (get_user_spotify uid Upstream.timeout).1 =
        "⏱️ Request timed out while fetching user " ++ cid ∧
      (get_user_kv uid Upstream.timeout).1 =
        "⏱️ Request timed out while fetching user " ++ cid) ∧
    (¬(200 ≤ status ∧ status < 300) → status ≠ 404 → status ≠ 429 →
      (get_user_presence uid (Upstream.response status body)).1 =
          "❌ API Error: HTTP " ++ toString status ∧
        (get_user_spotify uid (Upstream.response status body)).1 =
          "❌ API Error: HTTP " ++ toString status ∧
        (get_user_kv uid (Upstream.response status body)).1 =
          "❌ API Error: HTTP " ++ toString status) := by
  refine ⟨⟨?_, ?_, ?_⟩, ⟨?_, ?_, ?_⟩, ⟨?_, ?_, ?_⟩, fun h1 h2 h3 => ⟨?_, ?_, ?_⟩⟩ <;>
    simp [get_user_presence, get_user_spotify, get_user_kv, hs, *]

/-- Witness for C3, at the identifier "123456789012345678", an empty body,
and the generic status 500. -/
theorem valid_id_upstream_error_mapping_witness :
    sanitize_user_id "123456789012345678" = Except.ok "123456789012345678" ∧
    (get_user_presence "123456789012345678" (Upstream.response 404 emptyBody)).1 =
      "❌ User not found: " ++ "123456789012345678" ++
        " (Discord user may not be using Lanyard)" ∧
    ¬(200 ≤ 500 ∧ 500 < 300) ∧
    (get_user_kv "123456789012345678" (Upstream.response 500 emptyBody)).1 =
      "❌ API Error: HTTP " ++ toString 500 :=
  ⟨by decide,
    (valid_id_upstream_error_mapping "123456789012345678" "123456789012345678"
      emptyBody 500 (by decide)).1.1,
    by omega,
    ((valid_id_upstream_error_mapping "123456789012345678" "123456789012345678"
      emptyBody 500 (by decide)).2.2.2 (by omega) (by decide) (by decide)).2.2⟩

/-- Counterexample to claim C6 as stated: a `timestamps.start` that is
present but equal to `0` (a perfectly valid epoch value, 1970-01-01)
produces no "Started" line, because the code tests the value for
truthiness, not presence. -/
theorem spotify_zero_start_omitted :
    spotifyZeroStart.timestamps = some ⟨some 0, none⟩ ∧
    format_spotify_data spotifyZeroStart =
      "🎵 Spotify Activity:\n  Song: S\n  Artist: Unknown\n  Album: Unknown\n" ∧
    format_spotify_data spotifyZeroStart ≠
      "🎵 Spotify Activity:\n  Song: S\n  Artist: Unknown\n  Album: Unknown\n" ++
        ("  Started: " ++ format_timestamp 0 ++ "\n") := by decide

/-- Claim C6, amended: in the Spotify block a "Started" line is emitted
exactly when `timestamps.start` is present with a non-zero value, and an
"Ends" line exactly when `timestamps.end` is present with a non-zero value
(a present zero is treated like an absent key); each present line renders
the millisecond epoch value as UTC in the form `YYYY-MM-DD HH:MM:SS UTC`,
and every value whose conversion fails (i.e. whose instant falls outside
the supported `datetime` year range 1..9999) renders as the literal
"Unknown" instead of propagating an error. -/
theorem spotify_timestamp_lines (sp : Spotify) (hne : sp.isEmpty = false) :
    (format_spotify_data sp =
      "🎵 Spotify Activity:\n" ++ "  Song: " ++ sp.song.getD "Unknown" ++ "\n" ++
      "  Artist: " ++ sp.artist.getD "Unknown" ++ "\n" ++
      "  Album: " ++ sp.album.getD "Unknown" ++ "\n" ++
      (if (sp.timestamps.getD emptyTimestamps).start.getD 0 ≠ 0 then
        "  Started: " ++
          format_timestamp ((sp.timestamps.getD emptyTimestamps).start.getD 0) ++ "\n"
      else "") ++
      (if (sp.timestamps.getD emptyTimestamps).«end».getD 0 ≠ 0 then
        "  Ends: " ++
          format_timestamp ((sp.timestamps.getD emptyTimestamps).«end».getD 0) ++ "\n"
      else "")) ∧
    format_timestamp 1700000000000 = "2023-11-14 22:13:20 UTC" ∧
    format_timestamp 1000000000000000000 = "Unknown" ∧
    (∀ ms : Int, 253402300799 < Int.fdiv ms 1000 ∨ Int.fdiv ms 1000 < -62135596800 →
      format_timestamp ms = "Unknown") := by
  refine ⟨?_, by decide, by decide, ?_⟩
  · unfold format_spotify_data
    rw [if_neg (by simp [hne])]
  · intro ms hms
    have h : Int.fdiv ms 1000 < -62135596800 ∨ 253402300799 < Int.fdiv ms 1000 := by
      rcases hms with h | h
      · exact Or.inr h
      · exact Or.inl h
    unfold format_timestamp pyDatetimeUTC
    rw [if_pos h]

/-- Witness for the amended C6, at a spotify record with a start timestamp
of 1700000000000 ms and at the out-of-range value 10^18 ms. -/
theorem spotify_timestamp_lines_witness :
    spotifyStarted.isEmpty = false ∧
    format_spotify_data spotifyStarted =
      "🎵 Spotify Activity:\n  Song: Song\n  Artist: Artist\n  Album: Album\n  Started: 2023-11-14 22:13:20 UTC\n" ∧
    (253402300799 < Int.fdiv 1000000000000000000 1000 ∨
      Int.fdiv 1000000000000000000 1000 < -62135596800) ∧
    format_timestamp 1000000000000000000 = "Unknown" :=
  ⟨by decide,
    ((spotify_timestamp_lines spotifyStarted (by decide)).1).trans (by decide),
    by decide,
    (spotify_timestamp_lines spotifyStarted (by decide)).2.2.2 1000000000000000000
      (by decide)⟩

/-- Claim C4: for every payload and every combination of absent optional
fields, the three renderers are total functions into strings (the
embedding's return type) and absence never changes that: an absent field
renders exactly as its documented default.  Each conjunct below replaces
one optional field by its defaulted/empty form and shows the rendering is
unchanged on arbitrary payloads, and the concrete conjuncts show the
default displays ("Unknown", "No activities", omitted sections, …)
produced when everything is absent. -/
theorem renderers_default_on_absent_fields :
    (∀ (cid : String) (d : LanyardData),
      presence_output cid { d with discord_user := none } =
        presence_output cid { d with discord_user := some emptyUser }) ∧
    (∀ (cid : String) (d : LanyardData),
      presence_output cid { d with discord_status := none } =
        presence_output cid { d with discord_status := some "unknown" }) ∧
    (∀ (cid : String) (d : LanyardData),
      presence_output cid { d with active_on_discord_desktop := none,
                                   active_on_discord_mobile := none } =
        presence_output cid { d with active_on_discord_desktop := some false,
                                     active_on_discord_mobile := some false }) ∧
    (∀ (cid : String) (d : LanyardData),
      presence_output cid { d with listening_to_spotify := none } =
        presence_output cid { d with listening_to_spotify := some false }) ∧
    (∀ (cid : String) (d : LanyardData),
      presence_output cid { d with spotify := none } =
        presence_output cid { d with spotify := some emptySpotify }) ∧
    (∀ (cid : String) (d : LanyardData),
      presence_output cid { d with activities := none } =
        presence_output cid { d with activities := some [] }) ∧
    (∀ (cid : String) (d : LanyardData),
      presence_output cid { d with kv := none } =
        presence_output cid { d with kv := some [] }) ∧
    (∀ (cid : String) (d : LanyardData) (u : DiscordUser),
      presence_output cid { d with discord_user := some { u with username := none } } =
        presence_output cid { d with discord_user := some { u with username := some "Unknown" } }) ∧
    (∀ (cid : String) (d : LanyardData) (u : DiscordUser),
      presence_output cid { d with discord_user := some { u with discriminator := none } } =
        presence_output cid { d with discord_user := some { u with discriminator := some "0" } }) ∧
    (∀ (cid : String) (d : LanyardData) (u : DiscordUser),
      presence_output cid { d with discord_user := some { u with id := none } } =
        presence_output cid { d with discord_user := some { u with id := some cid } }) ∧
    (∀ d : LanyardData,
      spotify_render { d with spotify := none } =
        spotify_render { d with spotify := some emptySpotify }) ∧
    (∀ d : LanyardData,
      kv_render { d with kv := none } = kv_render { d with kv := some [] }) ∧
    pyStrip (presence_output "123456789012345678" emptyData) =
      "✅ Discord Presence for @Unknown (123456789012345678)\n\nStatus: ⚪ UNKNOWN" ∧
    spotify_render emptyData = "🎵 Unknown is not currently listening to Spotify" ∧
    kv_render emptyData = "📝 Unknown has no custom KV data set" ∧
    format_spotify_data spotifyOnlySong =
      "🎵 Spotify Activity:\n  Song: OnlySong\n  Artist: Unknown\n  Album: Unknown\n" ∧
    format_activities [activityNameless] = "\n1. Playing Unknown\n" ∧
    format_kv_data [] = "No KV data" ∧
    format_activities [] = "No activities" := by
  exact ⟨fun cid d => rfl, fun cid d => rfl, fun cid d => rfl, fun cid d => rfl,
    fun cid d => rfl, fun cid d => rfl, fun cid d => rfl,
    fun cid d u => rfl, fun cid d u => rfl, fun cid d u => rfl,
    fun d => rfl, fun d => rfl,
    by decide, by decide, by decide, by decide, by decide, rfl, rfl⟩

/-- Claim C7: for every payload and requested identifier, the full-presence
output (after the final strip) begins with the header
`✅ Discord Presence for {display} ({id})`, where the display name is
`@username` when the resolved discriminator equals the literal "0" and
`username#discriminator` otherwise; in particular alice with discriminator
"0" renders `@alice` and with "1234" renders `alice#1234`. -/
theorem presence_header_display_name :
    (∀ (clean_id : String) (data : LanyardData), ∃ t : String,
      pyStrip (presence_output clean_id data) =
        "✅ Discord Presence for " ++
          (if (data.discord_user.getD emptyUser).discriminator.getD "0" = "0" then
            "@" ++ (data.discord_user.getD emptyUser).username.getD "Unknown"
          else
            (data.discord_user.getD emptyUser).username.getD "Unknown" ++ "#" ++
              (data.discord_user.getD emptyUser).discriminator.getD "0") ++
          " (" ++ (data.discord_user.getD emptyUser).id.getD clean_id ++ ")" ++ t) ∧
    pyStrip (presence_output "111" aliceZero) =
      "✅ Discord Presence for @alice (111)\n\nStatus: ⚪ UNKNOWN" ∧
    pyStrip (presence_output "111" alice1234) =
      "✅ Discord Presence for alice#1234 (111)\n\nStatus: ⚪ UNKNOWN" := by
  refine ⟨?_, by decide, by decide⟩
  intro clean_id data
  refine ⟨⟨pyRStrip (presence_rest data).data⟩, ?_⟩
  have ha : ∃ c t, (presence_header clean_id data).data = c :: t ∧ pyIsSpace c = false := by
    simp only [presence_header]
    apply exists_head
    apply exists_head
    apply exists_head
    apply exists_head
    exact ⟨'✅', " Discord Presence for ".data, by decide, by decide⟩
  have hb : ∃ d ∈ (presence_rest data).data, pyIsSpace d = false := by
    refine ⟨'S', ?_, by decide⟩
    simp only [presence_rest]
    apply mem_data_append_left
    apply mem_data_append_left
    apply mem_data_append_left
    apply mem_data_append_left
    apply mem_data_append_left
    apply mem_data_append_left
    apply mem_data_append_left
    apply mem_data_append_left
    apply mem_data_append_left
    apply mem_data_append_left
    decide
  have key := pyStrip_append (presence_header clean_id data) (presence_rest data) ha hb
  exact key

end Lanyard
